import Mathlib

/-!
Verification of the ShellBot pty wrapper (`shell_bot_pty_fixed.py`) and the
minimal no-pty wrapper (`shell_bot_minimal.py`).

The Python code is embedded shallowly: each OS or library call (`select`,
`os.read`, `os.write`, `termios.tcgetattr`, `pty.fork`, `os.waitpid`,
`shlex.split`) is driven by an environment oracle supplying its outcome, and
the control flow of the Python functions is translated statement by
statement into Lean functions over explicit state.  Bytes are `Nat`s,
file-descriptor traffic is recorded in lists, and the session-level control
flow of `ShellBotPTY.run` is recorded as a trace of actions.
-/

namespace ShellBot

/-- Linux `errno.EAGAIN`, the "resource temporarily unavailable" code that
`_forward_io` treats as non-fatal (line `if e.errno != errno.EAGAIN`). -/
def EAGAIN : Nat := 11

/-- Outcome of an `os.read` call: either it returns a chunk of bytes
(possibly empty), or it raises `OSError` with the given `errno`. -/
inductive IOOutcome where
  | ok (data : List Nat)
  | err (errno : Nat)
deriving DecidableEq

/-- Outcome of an `os.write` call: success or `OSError` with an `errno`. -/
inductive WriteOutcome where
  | ok
  | err (errno : Nat)
deriving DecidableEq

/-- Outcome of one `select.select([stdin_fd, master_fd], [], [], 0.1)` call:
either it (or the iteration body) is interrupted by `select.error` /
`KeyboardInterrupt`, or it returns readiness of the two descriptors. -/
inductive SelectEvent where
  | interrupt
  | ready (stdinReady masterReady : Bool)
deriving DecidableEq

/-- Environment oracle for one iteration of the `while self.running` loop of
`ShellBotPTY._forward_io`: the select outcome, the result of the stdin read,
the result of the write of that chunk to the pty master, and the result of
the pty-master read.  Fields that the iteration does not reach are ignored. -/
structure IterEvent where
  sel : SelectEvent
  stdinRead : IOOutcome
  masterWrite : WriteOutcome
  masterRead : IOOutcome
deriving DecidableEq

/-- State of the forwarding loop: the `self.running` flag, the bytes written
so far to the pty master (stdin direction) and to the wrapper's stdout
(master direction). -/
structure FwdState where
  running : Bool
  toMaster : List Nat
  toStdout : List Nat
deriving DecidableEq

/-- The condition under which the stdin branch of `_forward_io` executes
`break` out of the `for fd in ready_fds` loop: an `OSError` whose errno is
not `EAGAIN`, raised either by the `os.read(stdin_fd, 8192)` or by the
`os.write(self.master_fd, data)` that only runs when the chunk is
non-empty. -/
def stdinBreaks (stdinReady : Bool) (r : IOOutcome) (w : WriteOutcome) : Bool :=
  if stdinReady then
    match r with
    | IOOutcome.err e => decide (e ≠ EAGAIN)
    | IOOutcome.ok d =>
      if d.isEmpty then false
      else
        match w with
        | WriteOutcome.ok => false
        | WriteOutcome.err e => decide (e ≠ EAGAIN)
  else false

/-- The stdin branch of the `for fd in ready_fds` loop (lines 101-110):
when stdin was ready, `data = os.read(stdin_fd, 8192)`; a non-empty chunk
is written verbatim to the pty master by `os.write(self.master_fd, data)`;
an `OSError` from either call forwards nothing (the chunk is not
recorded as written when the write raised). -/
def stdinStep (s : FwdState) (stdinReady : Bool) (r : IOOutcome) (w : WriteOutcome) : FwdState :=
  if stdinReady then
    match r, w with
    | IOOutcome.ok data, WriteOutcome.ok =>
      if data.isEmpty then s else { s with toMaster := s.toMaster ++ data }
    | IOOutcome.ok _, WriteOutcome.err _ => s
    | IOOutcome.err _, _ => s
  else s

/-- The master branch of the `for fd in ready_fds` loop (lines 112-126):
when the pty master was ready, `data = os.read(self.master_fd, 8192)`;
a non-empty chunk is written verbatim to stdout and flushed; an empty read
(pty closed) or an `OSError` sets `self.running = False`. -/
def masterStep (s : FwdState) (masterReady : Bool) (r : IOOutcome) : FwdState :=
  if masterReady then
    match r with
    | IOOutcome.ok data =>
      if data.isEmpty then { s with running := false }
      else { s with toStdout := s.toStdout ++ data }
    | IOOutcome.err _ => { s with running := false }
  else s

/-- One iteration of the `while self.running` loop of
`ShellBotPTY._forward_io` (lines 94-134).  `select` returns the ready
descriptors in the order of `read_fds = [stdin_fd, self.master_fd]`, so the
stdin branch runs before the master branch.  A non-EAGAIN error in the stdin
branch only breaks the inner `for` loop (skipping the master branch this
iteration); it does not touch `self.running`.  A zero-byte read or any
`OSError` in the master branch sets `self.running = False`.  `select.error`
or `KeyboardInterrupt` sets `self.running = False` and breaks the while
loop. -/
def forwardIter (s : FwdState) (ev : IterEvent) : FwdState :=
  match ev.sel with
  | SelectEvent.interrupt => { s with running := false }
  | SelectEvent.ready stdinReady masterReady =>
    let s1 := stdinStep s stdinReady ev.stdinRead ev.masterWrite
    if stdinBreaks stdinReady ev.stdinRead ev.masterWrite then s1
    else masterStep s1 masterReady ev.masterRead

/-- Events in which every OS call of the iteration succeeds: select returns
normally, the stdin read (when stdin is ready) returns a chunk and the
write of that chunk succeeds, and the master read (when the master is
ready) returns a non-empty chunk.  Used to state byte-exactness of the
forwarder. -/
def evGood (ev : IterEvent) : Bool :=
  match ev.sel with
  | SelectEvent.interrupt => false
  | SelectEvent.ready stdinReady masterReady =>
    (if stdinReady then
       match ev.stdinRead, ev.masterWrite with
       | IOOutcome.ok _, WriteOutcome.ok => true
       | _, _ => false
     else true)
    && (if masterReady then
          match ev.masterRead with
          | IOOutcome.ok d => !d.isEmpty
          | IOOutcome.err _ => false
        else true)

/-- The chunk the iteration reads from the wrapper's stdin (empty when
stdin was not polled ready or the read raised). -/
def stdinChunk (ev : IterEvent) : List Nat :=
  match ev.sel, ev.stdinRead with
  | SelectEvent.ready true _, IOOutcome.ok d => d
  | _, _ => []

/-- The chunk the iteration reads from the pty master (empty when the
master was not polled ready or the read raised). -/
def masterChunk (ev : IterEvent) : List Nat :=
  match ev.sel, ev.masterRead with
  | SelectEvent.ready _ true, IOOutcome.ok d => d
  | _, _ => []

/-- All bytes offered on the stdin side over a run, in order. -/
def stdinBytes (evs : List IterEvent) : List Nat := (evs.map stdinChunk).flatten

/-- All bytes offered on the pty-master side over a run, in order. -/
def masterBytes (evs : List IterEvent) : List Nat := (evs.map masterChunk).flatten

/-- The `while self.running` loop, driven by one oracle event per iteration;
the loop stops consuming events as soon as `running` is false, exactly as
the while condition is rechecked each iteration. -/
def forwardLoop : FwdState → List IterEvent → FwdState
  | s, [] => s
  | s, ev :: rest => if s.running then forwardLoop (forwardIter s ev) rest else s

/-- Number of iterations of the while loop actually executed. -/
def numIters : FwdState → List IterEvent → Nat
  | _, [] => 0
  | s, ev :: rest => if s.running then numIters (forwardIter s ev) rest + 1 else 0

/-- Outcome of the `os.waitpid(self.pid, 0)` call at the end of
`_forward_io`: the raw 16-bit wait status, or `ChildProcessError`. -/
inductive WaitOutcome where
  | status (st : Nat)
  | childGone
deriving DecidableEq

/-- `os.WEXITSTATUS`: high byte of the raw wait status. -/
def WEXITSTATUS (st : Nat) : Nat := (st / 256) % 256

/-- `os.WIFSIGNALED`: the child was terminated by a signal
(glibc: `((status & 0x7f) + 1) >> 1 > 0`). -/
def WIFSIGNALED (st : Nat) : Bool := decide (0 < (st % 128 + 1) / 2)

/-- Return value of `_forward_io` (lines 136-141): `os.WEXITSTATUS(status)`
of the waited status, applied unconditionally — there is no
`WIFSIGNALED` branch — and `1` if `os.waitpid` raised
`ChildProcessError`. -/
def forwardIOResult : WaitOutcome → Nat
  | WaitOutcome.status st => WEXITSTATUS st
  | WaitOutcome.childGone => 1

/-- Observable actions of `ShellBotPTY.run` and `ShellBotPTY._cleanup`, in
program order: entering raw mode (`tty.setraw`), one executed iteration of
the forwarding while loop, the `os.waitpid` call, the attribute restore
(`termios.tcsetattr`), the `print(f"Error: ...")` in the `except` handler,
the `os.close(self.master_fd)` and the `os.kill(self.pid, SIGTERM)` of
`_cleanup`. -/
inductive Action where
  | setraw
  | loopIter
  | waitChild
  | restore
  | printError
  | closeMaster
  | killChild
deriving DecidableEq

/-- Occurrence count of an action in a trace. -/
def countAct (a : Action) : List Action → Nat
  | [] => 0
  | b :: rest => (if b = a then 1 else 0) + countAct a rest

/-- Python truthiness of the `Option Nat` fields `self.master_fd` /
`self.pid` as tested by `if self.master_fd:` and `if self.pid:` in
`_cleanup`: `None` and `0` are falsy. -/
def optTruthy : Option Nat → Bool
  | none => false
  | some n => decide (n ≠ 0)

/-- Trace of `ShellBotPTY._cleanup` (lines 143-157): close the master fd if
it is truthy, then SIGTERM the child pid if it is truthy (both wrapped in
`try/except: pass`). -/
def cleanupTrace (mfd pid : Option Nat) : List Action :=
  (if optTruthy mfd then [Action.closeMaster] else [])
    ++ (if optTruthy pid then [Action.killChild] else [])

/-- Environment oracle for one call of `ShellBotPTY.run` as seen by the
parent process: the `termios.tcgetattr` outcome (`none` = raises, e.g.
stdin is not a terminal), the `pty.fork` outcome (`none` = raises;
`some (pid, master_fd)` = parent side), whether `tty.setraw` succeeds,
the per-iteration oracle of the forwarding loop, and the `os.waitpid`
outcome. -/
structure RunEnv where
  tcg : Option Nat
  forkR : Option (Nat × Nat)
  setrawOk : Bool
  loopEvents : List IterEvent
  waitR : WaitOutcome

/-- Initial forwarding-loop state: `self.running = True` from `__init__`,
nothing forwarded yet. -/
def initFwd : FwdState := { running := true, toMaster := [], toStdout := [] }

/-- Action trace and return value of `ShellBotPTY.run` (lines 35-83), parent
side, translated clause by clause:
`tcgetattr` raises → outer `except` prints the error and returns 1, outer
`finally` runs `_cleanup` with `master_fd = pid = None`;
`pty.fork` raises → same path (the restore at line 77 is inside the
parent-branch `try/finally`, which was never entered);
fork succeeds (parent, `pid != 0`) → inner `try` runs `tty.setraw` then
`_forward_io`, the inner `finally` runs `tcsetattr` (the restore), and the
outer `finally` runs `_cleanup`; if `setraw` raises, the inner `finally`
still restores, then the outer `except` prints and returns 1, then
`_cleanup`.  (The `pid == 0` branch is the child process, modelled
separately by `chooseExec`.) -/
def runTrace (env : RunEnv) : List Action × Nat :=
  match env.tcg with
  | none => ([Action.printError] ++ cleanupTrace none none, 1)
  | some _ =>
    match env.forkR with
    | none => ([Action.printError] ++ cleanupTrace none none, 1)
    | some (pid, mfd) =>
      if env.setrawOk then
        (Action.setraw ::
          (List.replicate (numIters initFwd env.loopEvents) Action.loopIter
            ++ [Action.waitChild, Action.restore]
            ++ cleanupTrace (some mfd) (some pid)),
         forwardIOResult env.waitR)
      else
        ([Action.restore, Action.printError] ++ cleanupTrace (some mfd) (some pid), 1)

/-- Whether `save()` (the `termios.tcgetattr` at line 43) succeeded. -/
def saveOk (env : RunEnv) : Bool := env.tcg.isSome

/-- Whether `spawn` (the `pty.fork` at line 46) succeeded in the parent. -/
def spawnOk (env : RunEnv) : Bool := env.forkR.isSome

/-- True when some `loopIter` occurs in the trace. -/
def hasLoopIter : List Action → Bool
  | [] => false
  | Action.loopIter :: _ => true
  | _ :: rest => hasLoopIter rest

/-- True when a forwarding-loop iteration occurs at or after the first
`closeMaster` in the trace — i.e. the master fd is used after close. -/
def ioAfterClose : List Action → Bool
  | [] => false
  | Action.closeMaster :: rest => hasLoopIter rest
  | _ :: rest => ioAfterClose rest

/-- Result of `shlex.split(self.command)` in the child (line 55): the token
list, or a `ValueError` (e.g. an unbalanced quote). -/
inductive ShlexResult where
  | toks (args : List String)
  | err
deriving DecidableEq

/-- How the child executes the command. -/
inductive ExecChoice where
  | execvp (argv : List String)
  | bashC (cmd : String)
  | childError
deriving DecidableEq

/-- The child-side command dispatch of `ShellBotPTY.run` (lines 48-61):
`args = shlex.split(self.command)`; `os.execvp(args[0], args)` when
`len(args) > 1`, else `os.execlp('bash', 'bash', '-c', self.command)`.
A `ValueError` from `shlex.split` propagates to the `except` handler of
`run` inside the child, which prints the error and returns 1. -/
def chooseExec (cmd : String) (r : ShlexResult) : ExecChoice :=
  match r with
  | ShlexResult.toks args =>
    if 1 < args.length then ExecChoice.execvp args else ExecChoice.bashC cmd
  | ShlexResult.err => ExecChoice.childError

/-- State of the minimal (no-pty) wrapper's forwarding loop
(`MinimalShellBot._simple_forward`): bytes forwarded to the wrapper's
stdout and stderr, bytes written to the child's stdin pipe, and whether
that pipe has been closed. -/
structure MinState where
  toStdout : List Nat
  toStderr : List Nat
  toChildStdin : List Nat
  childStdinClosed : Bool
deriving DecidableEq

/-- Select outcome for the minimal loop, over
`read_fds = [stdout_fd, stderr_fd]`. -/
inductive MinSel where
  | interrupt
  | ready (outReady errReady : Bool)
deriving DecidableEq

/-- Environment oracle for one iteration of the minimal loop:
whether `self.process.poll()` reports the child exited at the top of the
iteration, the select outcome, and the outcomes of the stdout / stderr
reads. -/
structure MinEvent where
  exited : Bool
  sel : MinSel
  outRead : IOOutcome
  errRead : IOOutcome
deriving DecidableEq

/-- The stdout branch of the minimal loop (lines 66-73): a non-empty read
from the child's stdout is written to the wrapper's stdout and flushed;
`OSError` on the read is swallowed (`pass`). -/
def minOutStep (s : MinState) (outReady : Bool) (r : IOOutcome) : MinState :=
  if outReady then
    match r with
    | IOOutcome.ok d =>
      if d.isEmpty then s else { s with toStdout := s.toStdout ++ d }
    | IOOutcome.err _ => s
  else s

/-- The stderr branch of the minimal loop (lines 74-81). -/
def minErrStep (s : MinState) (errReady : Bool) (r : IOOutcome) : MinState :=
  if errReady then
    match r with
    | IOOutcome.ok d =>
      if d.isEmpty then s else { s with toStderr := s.toStderr ++ d }
    | IOOutcome.err _ => s
  else s

/-- The `while self.process.poll() is None` loop of
`MinimalShellBot._simple_forward` (lines 56-81): select only on the child's
stdout and stderr (`read_fds = [stdout_fd, stderr_fd]`); `select.error` /
`KeyboardInterrupt` breaks the loop; otherwise the stdout branch runs
before the stderr branch.  The child's stdin pipe is never written to and
never closed. -/
def minimalLoop : MinState → List MinEvent → MinState
  | s, [] => s
  | s, ev :: rest =>
    if ev.exited then s
    else
      match ev.sel with
      | MinSel.interrupt => s
      | MinSel.ready outReady errReady =>
        minimalLoop (minErrStep (minOutStep s outReady ev.outRead) errReady ev.errRead) rest

/-- State right after `subprocess.Popen(..., stdin=PIPE, stdout=PIPE,
stderr=PIPE, bufsize=0)` in `MinimalShellBot.run`: the child's stdin pipe
exists, is open, and has received no bytes. -/
def minimalSpawnState : MinState :=
  { toStdout := [], toStderr := [], toChildStdin := [], childStdinClosed := false }

/-! ### Helper lemmas -/

/-- A loop whose `running` flag is down consumes no events. -/
lemma forwardLoop_of_not_running (s : FwdState) (evs : List IterEvent)
    (h : s.running = false) : forwardLoop s evs = s := by
  cases evs with
  | nil => rfl
  | cons ev rest => simp [forwardLoop, h]

/-- A loop whose `running` flag is down executes no iterations. -/
lemma numIters_of_not_running (s : FwdState) (evs : List IterEvent)
    (h : s.running = false) : numIters s evs = 0 := by
  cases evs with
  | nil => rfl
  | cons ev rest => simp [numIters, h]

/-- The stdin branch never touches the `running` flag. -/
lemma stdinStep_running (s : FwdState) (b : Bool) (r : IOOutcome) (w : WriteOutcome) :
    (stdinStep s b r w).running = s.running := by
  cases b with
  | false => rfl
  | true =>
    cases r with
    | ok d =>
      cases w with
      | ok => cases d <;> simp [stdinStep]
      | err e => simp [stdinStep]
    | err e => simp [stdinStep]

/-- When the stdin branch breaks out of the `for` loop, it has forwarded
nothing: the state is unchanged. -/
lemma stdinStep_of_breaks (s : FwdState) (b : Bool) (r : IOOutcome) (w : WriteOutcome)
    (h : stdinBreaks b r w = true) : stdinStep s b r w = s := by
  cases b with
  | false => simp [stdinBreaks] at h
  | true =>
    cases r with
    | ok d =>
      cases w with
      | ok => cases d <;> simp [stdinBreaks] at h
      | err e => simp [stdinStep]
    | err e => simp [stdinStep]

lemma countAct_append (a : Action) (l m : List Action) :
    countAct a (l ++ m) = countAct a l + countAct a m := by
  induction l with
  | nil => simp [countAct]
  | cons b rest ih => simp [countAct, ih]; omega

lemma countAct_replicate_of_ne (a b : Action) (n : Nat) (h : b ≠ a) :
    countAct a (List.replicate n b) = 0 := by
  induction n with
  | zero => rfl
  | succ n ih => simp [List.replicate, countAct, h, ih]

/-- Everything `_cleanup` does is a close or a kill. -/
lemma mem_cleanupTrace (a : Action) (mfd pid : Option Nat)
    (h : a ∈ cleanupTrace mfd pid) :
    a = Action.closeMaster ∨ a = Action.killChild := by
  unfold cleanupTrace at h
  cases h1 : optTruthy mfd <;> cases h2 : optTruthy pid <;>
    simp [h1, h2] at h <;> simp [h]

lemma countAct_cleanupTrace_of_ne (a : Action) (mfd pid : Option Nat)
    (hc : a ≠ Action.closeMaster) (hk : a ≠ Action.killChild) :
    countAct a (cleanupTrace mfd pid) = 0 := by
  unfold cleanupTrace
  cases h1 : optTruthy mfd <;> cases h2 : optTruthy pid <;>
    simp [h1, h2, countAct, Ne.symm hc, Ne.symm hk]

lemma countAct_closeMaster_cleanupTrace (mfd pid : Option Nat) :
    countAct Action.closeMaster (cleanupTrace mfd pid)
      = if optTruthy mfd then 1 else 0 := by
  unfold cleanupTrace
  cases h1 : optTruthy mfd <;> cases h2 : optTruthy pid <;>
    simp [h1, h2, countAct]

/-- Walking a close-free prefix leaves `ioAfterClose` looking at the rest. -/
lemma ioAfterClose_append (pre post : List Action)
    (h : Action.closeMaster ∉ pre) :
    ioAfterClose (pre ++ post) = ioAfterClose post := by
  induction pre with
  | nil => rfl
  | cons a rest ih =>
    have ha : a ≠ Action.closeMaster := fun he => h (by simp [he])
    have hrest : Action.closeMaster ∉ rest := fun hm => h (by simp [hm])
    cases a <;> simp only [List.cons_append, ioAfterClose] <;>
      first
        | exact ih hrest
        | exact absurd rfl ha

lemma ioAfterClose_cleanupTrace (mfd pid : Option Nat) :
    ioAfterClose (cleanupTrace mfd pid) = false := by
  unfold cleanupTrace
  cases h1 : optTruthy mfd <;> cases h2 : optTruthy pid <;>
    simp [h1, h2, ioAfterClose, hasLoopIter]

/-- Under an all-successful event the iteration appends exactly the stdin
chunk to the master stream and exactly the master chunk to stdout, and the
loop keeps running. -/
lemma forwardIter_good (s : FwdState) (ev : IterEvent) (hg : evGood ev = true) :
    forwardIter s ev =
      { running := s.running,
        toMaster := s.toMaster ++ stdinChunk ev,
        toStdout := s.toStdout ++ masterChunk ev } := by
  obtain ⟨sel, srd, mw, mrd⟩ := ev
  cases sel with
  | interrupt => simp [evGood] at hg
  | ready sr mr =>
    cases sr <;> cases mr <;>
      cases srd <;> cases mw <;> cases mrd <;>
      simp_all [evGood, forwardIter, stdinStep, masterStep, stdinBreaks,
        stdinChunk, masterChunk] <;>
      · rename_i d1 d2
        cases d1 <;> cases d2 <;> simp_all

/-- An action with zero count does not occur. -/
lemma not_mem_of_countAct_eq_zero (a : Action) (l : List Action)
    (h : countAct a l = 0) : a ∉ l := by
  induction l with
  | nil => simp
  | cons b rest ih =>
    by_cases hba : b = a
    · simp [countAct, hba] at h
    · simp only [countAct, if_neg hba, Nat.zero_add] at h
      intro hm
      rcases List.mem_cons.mp hm with he | hm2
      · exact hba he.symm
      · exact ih h hm2

/-- The stdout branch of the minimal loop leaves the child's stdin pipe
alone. -/
lemma minOutStep_frame (s : MinState) (b : Bool) (r : IOOutcome) :
    (minOutStep s b r).toChildStdin = s.toChildStdin
    ∧ (minOutStep s b r).childStdinClosed = s.childStdinClosed := by
  cases b with
  | false => exact ⟨rfl, rfl⟩
  | true =>
    cases r with
    | ok d => cases d <;> simp [minOutStep]
    | err e => simp [minOutStep]

/-- The stderr branch of the minimal loop leaves the child's stdin pipe
alone. -/
lemma minErrStep_frame (s : MinState) (b : Bool) (r : IOOutcome) :
    (minErrStep s b r).toChildStdin = s.toChildStdin
    ∧ (minErrStep s b r).childStdinClosed = s.childStdinClosed := by
  cases b with
  | false => exact ⟨rfl, rfl⟩
  | true =>
    cases r with
    | ok d => cases d <;> simp [minErrStep]
    | err e => simp [minErrStep]

/-- The whole minimal loop leaves the child's stdin pipe alone. -/
lemma minimalLoop_frame (s : MinState) (evs : List MinEvent) :
    (minimalLoop s evs).toChildStdin = s.toChildStdin
    ∧ (minimalLoop s evs).childStdinClosed = s.childStdinClosed := by
  induction evs generalizing s with
  | nil => exact ⟨rfl, rfl⟩
  | cons ev rest ih =>
    obtain ⟨ex, sel, orr, er⟩ := ev
    cases ex with
    | true => exact ⟨rfl, rfl⟩
    | false =>
      cases sel with
      | interrupt => exact ⟨rfl, rfl⟩
      | ready oR eR =>
        have h1 := minOutStep_frame s oR orr
        have h2 := minErrStep_frame (minOutStep s oR orr) eR er
        have h3 := ih (minErrStep (minOutStep s oR orr) eR er)
        have hstep : minimalLoop s
            ({ exited := false, sel := MinSel.ready oR eR,
               outRead := orr, errRead := er } :: rest)
            = minimalLoop (minErrStep (minOutStep s oR orr) eR er) rest := rfl
        rw [hstep]
        exact ⟨by rw [h3.1, h2.1, h1.1], by rw [h3.2, h2.2, h1.2]⟩

/-! ### Claims -/

/-- Claim C1, counterexample: when `termios.tcgetattr` (the save) succeeds
but `pty.fork` raises, `ShellBotPTY.run` never executes the restore at line
77 — it lives in the inner `try/finally` that is only entered after a
successful fork — yet the wrapper exits with code 1.  This refutes
"restored exactly once if and only if the initial save succeeded" and
refutes "when spawn fails after a successful save, the restore still runs
before the wrapper exits with code 1". -/
theorem claim_C1_counterexample :
    saveOk { tcg := some 0, forkR := none, setrawOk := true,
             loopEvents := [], waitR := WaitOutcome.childGone } = true
    ∧ countAct Action.restore
        (runTrace { tcg := some 0, forkR := none, setrawOk := true,
                    loopEvents := [], waitR := WaitOutcome.childGone }).1 = 0
    ∧ (runTrace { tcg := some 0, forkR := none, setrawOk := true,
                  loopEvents := [], waitR := WaitOutcome.childGone }).2 = 1 :=
  ⟨rfl, rfl, rfl⟩

/-- Claim C1 (amended): the saved terminal attributes are restored exactly
once if and only if both the initial save (`tcgetattr`) and the spawn
(`pty.fork`) succeeded; when the fork raises after a successful save, the
restore does not run and the wrapper exits with code 1. -/
theorem claim_C1_amended_restore_once (env : RunEnv) :
    countAct Action.restore (runTrace env).1
      = if saveOk env && spawnOk env then 1 else 0 := by
  obtain ⟨tcg, forkR, sOk, evs, w⟩ := env
  cases tcg with
  | none => rfl
  | some attrs =>
    cases forkR with
    | none => rfl
    | some pm =>
      obtain ⟨pid, mfd⟩ := pm
      cases sOk with
      | false =>
        simp [runTrace, saveOk, spawnOk, countAct, countAct_append,
          countAct_cleanupTrace_of_ne]
      | true =>
        simp [runTrace, saveOk, spawnOk, countAct, countAct_append,
          countAct_replicate_of_ne, countAct_cleanupTrace_of_ne]

/-- Claim C2, counterexample: a raw wait status of 15 (child terminated by
SIGTERM, `WIFSIGNALED` holds) makes `_forward_io` return
`os.WEXITSTATUS(15) = 0` — the wrapper exits 0 for a signal-terminated
child, not a synthesized non-zero code. -/
theorem claim_C2_counterexample :
    WIFSIGNALED 15 = true
    ∧ forwardIOResult (WaitOutcome.status 15) = 0 := by
  exact ⟨rfl, rfl⟩

/-- Claim C2 (amended): `_forward_io` translates the waited status by
applying `os.WEXITSTATUS` unconditionally: a normally exited child yields
the child's own exit code (e.g. 42), a wait failure because the child no
longer exists yields the generic code 1, but a signal-terminated child
yields `WEXITSTATUS(status) = 0`, not a non-zero code. -/
theorem claim_C2_amended_wait_translation :
    (∀ c : Nat, c < 256 → forwardIOResult (WaitOutcome.status (c * 256)) = c)
    ∧ forwardIOResult WaitOutcome.childGone = 1
    ∧ (∀ sg : Nat, WIFSIGNALED sg = true → sg < 128 →
        forwardIOResult (WaitOutcome.status sg) = 0) := by
  refine ⟨?_, rfl, ?_⟩
  · intro c hc
    simp only [forwardIOResult, WEXITSTATUS]
    omega
  · intro sg _ h2
    simp only [forwardIOResult, WEXITSTATUS]
    omega

/-- Claim C2 witness: a child exiting 42 (raw status `42 * 256`) makes the
wrapper return 42. -/
theorem claim_C2_witness :
    forwardIOResult (WaitOutcome.status (42 * 256)) = 42 :=
  claim_C2_amended_wait_translation.1 42 (by decide)

/-- Claim C3, counterexample: a non-EAGAIN `OSError` (errno 5) in the
stdin-to-master direction does not flip the `running` flag — the `break` at
line 110 only leaves the `for fd in ready_fds` loop — and the loop keeps
forwarding: a later master chunk `[65]` still reaches stdout. -/
theorem claim_C3_counterexample :
    (forwardLoop { running := true, toMaster := [], toStdout := [] }
      [ { sel := SelectEvent.ready true false, stdinRead := IOOutcome.err 5,
          masterWrite := WriteOutcome.ok, masterRead := IOOutcome.ok [] },
        { sel := SelectEvent.ready false true, stdinRead := IOOutcome.ok [],
          masterWrite := WriteOutcome.ok, masterRead := IOOutcome.ok [65] } ]).running
      = true
    ∧ (forwardLoop { running := true, toMaster := [], toStdout := [] }
        [ { sel := SelectEvent.ready true false, stdinRead := IOOutcome.err 5,
            masterWrite := WriteOutcome.ok, masterRead := IOOutcome.ok [] },
          { sel := SelectEvent.ready false true, stdinRead := IOOutcome.ok [],
            masterWrite := WriteOutcome.ok, masterRead := IOOutcome.ok [65] } ]).toStdout
      = [65] :=
  ⟨rfl, rfl⟩

/-- Claim C3 (amended): an unrecoverable (non-EAGAIN) error in the
master-to-stdout direction ends the forwarding loop and flips the running
flag, after which no further forwarding happens; an unrecoverable error in
the stdin-to-master direction only abandons the remainder of the current
iteration (the state is unchanged and the loop continues with `running`
still true). -/
theorem claim_C3_amended_error_handling :
    (∀ (s : FwdState) (ev : IterEvent) (sr mr : Bool),
      ev.sel = SelectEvent.ready sr mr →
      stdinBreaks sr ev.stdinRead ev.masterWrite = true →
      forwardIter s ev = s)
    ∧ (∀ (s : FwdState) (ev : IterEvent) (sr : Bool) (e : Nat)
        (rest : List IterEvent),
      s.running = true →
      ev.sel = SelectEvent.ready sr true →
      stdinBreaks sr ev.stdinRead ev.masterWrite = false →
      ev.masterRead = IOOutcome.err e →
      (forwardIter s ev).running = false
        ∧ forwardLoop (forwardIter s ev) rest = forwardIter s ev) := by
  constructor
  · intro s ev sr mr hsel hb
    simp [forwardIter, hsel, hb, stdinStep_of_breaks]
  · intro s ev sr e rest hr hsel hnb hread
    have h1 : forwardIter s ev
        = { stdinStep s sr ev.stdinRead ev.masterWrite with running := false } := by
      simp [forwardIter, hsel, hnb, masterStep, hread]
    rw [h1]
    exact ⟨rfl, forwardLoop_of_not_running _ _ rfl⟩

/-- Claim C3 witness: with the loop running, a non-EAGAIN stdin error
(errno 5) leaves the state untouched, and a master-side error (errno 5) in
the next event flips the flag and stops the loop. -/
theorem claim_C3_witness :
    forwardIter { running := true, toMaster := [3], toStdout := [4] }
        { sel := SelectEvent.ready true true, stdinRead := IOOutcome.err 5,
          masterWrite := WriteOutcome.ok, masterRead := IOOutcome.ok [9] }
      = { running := true, toMaster := [3], toStdout := [4] }
    ∧ (forwardIter { running := true, toMaster := [], toStdout := [] }
        { sel := SelectEvent.ready false true, stdinRead := IOOutcome.ok [],
          masterWrite := WriteOutcome.ok, masterRead := IOOutcome.err 5 }).running
      = false :=
  ⟨claim_C3_amended_error_handling.1 _ _ true true rfl (by decide),
   (claim_C3_amended_error_handling.2 _ _ false 5 [] rfl rfl (by decide) rfl).1⟩

/-- Claim C4, counterexample: the command string `ls` tokenizes cleanly to
the single word `["ls"]`, yet the child executes it via `bash -c ls`
because the code tests `len(args) > 1`, not clean tokenization; and a
tokenization failure (a `ValueError` from `shlex.split`) does not fall back
to shell indirection — it propagates in the child, which prints the error
and exits 1. -/
theorem claim_C4_counterexample :
    chooseExec "ls" (ShlexResult.toks ["ls"]) = ExecChoice.bashC "ls"
    ∧ chooseExec "ls" (ShlexResult.toks ["ls"]) ≠ ExecChoice.execvp ["ls"]
    ∧ chooseExec "badcmd" ShlexResult.err = ExecChoice.childError
    ∧ chooseExec "badcmd" ShlexResult.err ≠ ExecChoice.bashC "badcmd" := by
  refine ⟨rfl, by decide, rfl, by decide⟩

/-- Claim C4 (amended): the child executes the command as a tokenized argv
word list exactly when `shlex.split` yields more than one token; with at
most one token (even a clean single-word command) it uses
`bash -c <original string>`; when tokenization raises, the child reports
the error and exits 1 instead of using shell indirection.  The choice is
made once, in the child, before the process image is replaced. -/
theorem claim_C4_amended_command_parse (cmd : String) (r : ShlexResult) :
    (∀ args : List String, r = ShlexResult.toks args → 1 < args.length →
      chooseExec cmd r = ExecChoice.execvp args)
    ∧ (∀ args : List String, r = ShlexResult.toks args → args.length ≤ 1 →
      chooseExec cmd r = ExecChoice.bashC cmd)
    ∧ (r = ShlexResult.err → chooseExec cmd r = ExecChoice.childError) := by
  refine ⟨?_, ?_, ?_⟩
  · intro args hr hlen
    subst hr
    simp [chooseExec, hlen]
  · intro args hr hlen
    subst hr
    simp [chooseExec, Nat.not_lt.mpr hlen]
  · intro hr
    subst hr
    rfl

/-- Claim C4 witness: `echo hi` tokenizes to two words and is executed as
an argv vector. -/
theorem claim_C4_witness :
    chooseExec "echo hi" (ShlexResult.toks ["echo", "hi"])
      = ExecChoice.execvp ["echo", "hi"] :=
  (claim_C4_amended_command_parse "echo hi" (ShlexResult.toks ["echo", "hi"])).1
    ["echo", "hi"] rfl (by decide)

/-- Claim C5: byte-exactness of the forwarder.  Over any run in which the
polled OS calls succeed (and master reads are non-empty, so the loop stays
alive), the bytes written to the pty master are exactly the stdin chunks,
concatenated in order, and the bytes written to stdout are exactly the
master chunks, concatenated in order — no transformation, insertion,
duplication, or reordering within either direction. -/
theorem claim_C5_byte_exact (s : FwdState) (evs : List IterEvent)
    (hr : s.running = true) (hg : ∀ ev ∈ evs, evGood ev = true) :
    (forwardLoop s evs).toMaster = s.toMaster ++ stdinBytes evs
    ∧ (forwardLoop s evs).toStdout = s.toStdout ++ masterBytes evs := by
  induction evs generalizing s with
  | nil => simp [forwardLoop, stdinBytes, masterBytes]
  | cons ev rest ih =>
    have hgev : evGood ev = true := hg ev (by simp)
    have hrest : ∀ e ∈ rest, evGood e = true := fun e he => hg e (by simp [he])
    have hstep := forwardIter_good s ev hgev
    have hrun : (forwardIter s ev).running = true := by rw [hstep]; exact hr
    have hih := ih (forwardIter s ev) hrun hrest
    have hloop : forwardLoop s (ev :: rest) = forwardLoop (forwardIter s ev) rest := by
      simp [forwardLoop, hr]
    rw [hloop]
    rcases hih with ⟨h1, h2⟩
    rw [h1, h2, hstep]
    simp [stdinBytes, masterBytes]

/-- Claim C5 witness: two successful iterations forward stdin chunks
`[1, 2]` then `[3]` to the master and master chunk `[7]` to stdout,
verbatim and in order. -/
theorem claim_C5_witness :
    (forwardLoop { running := true, toMaster := [], toStdout := [] }
      [ { sel := SelectEvent.ready true true, stdinRead := IOOutcome.ok [1, 2],
          masterWrite := WriteOutcome.ok, masterRead := IOOutcome.ok [7] },
        { sel := SelectEvent.ready true false, stdinRead := IOOutcome.ok [3],
          masterWrite := WriteOutcome.ok, masterRead := IOOutcome.ok [] } ]).toMaster
      = [1, 2, 3]
    ∧ (forwardLoop { running := true, toMaster := [], toStdout := [] }
        [ { sel := SelectEvent.ready true true, stdinRead := IOOutcome.ok [1, 2],
            masterWrite := WriteOutcome.ok, masterRead := IOOutcome.ok [7] },
          { sel := SelectEvent.ready true false, stdinRead := IOOutcome.ok [3],
            masterWrite := WriteOutcome.ok, masterRead := IOOutcome.ok [] } ]).toStdout
      = [7] := by
  have h := claim_C5_byte_exact
    { running := true, toMaster := [], toStdout := [] }
    [ { sel := SelectEvent.ready true true, stdinRead := IOOutcome.ok [1, 2],
        masterWrite := WriteOutcome.ok, masterRead := IOOutcome.ok [7] },
      { sel := SelectEvent.ready true false, stdinRead := IOOutcome.ok [3],
        masterWrite := WriteOutcome.ok, masterRead := IOOutcome.ok [] } ]
    rfl (by decide)
  simpa using h

/-- Claim C6: whenever a read on the pty master returns zero bytes (and the
stdin branch of the same iteration did not break first), the iteration sets
the running flag to false and the loop executes no further iterations —
forwarding ends immediately after the current iteration. -/
theorem claim_C6_close_terminates (s : FwdState) (ev : IterEvent) (sr : Bool)
    (rest : List IterEvent)
    (hr : s.running = true)
    (hsel : ev.sel = SelectEvent.ready sr true)
    (hnb : stdinBreaks sr ev.stdinRead ev.masterWrite = false)
    (hread : ev.masterRead = IOOutcome.ok []) :
    (forwardIter s ev).running = false
    ∧ forwardLoop (forwardIter s ev) rest = forwardIter s ev
    ∧ numIters (forwardIter s ev) rest = 0 := by
  have h1 : forwardIter s ev
      = { stdinStep s sr ev.stdinRead ev.masterWrite with running := false } := by
    simp [forwardIter, hsel, hnb, masterStep, hread]
  rw [h1]
  exact ⟨rfl, forwardLoop_of_not_running _ _ rfl, numIters_of_not_running _ _ rfl⟩

/-- Claim C6 witness: a zero-byte master read stops the loop; even with a
further event pending, zero further iterations execute. -/
theorem claim_C6_witness :
    (forwardIter { running := true, toMaster := [], toStdout := [] }
        { sel := SelectEvent.ready false true, stdinRead := IOOutcome.ok [],
          masterWrite := WriteOutcome.ok, masterRead := IOOutcome.ok [] }).running
      = false
    ∧ numIters
        (forwardIter { running := true, toMaster := [], toStdout := [] }
          { sel := SelectEvent.ready false true, stdinRead := IOOutcome.ok [],
            masterWrite := WriteOutcome.ok, masterRead := IOOutcome.ok [] })
        [ { sel := SelectEvent.ready true true, stdinRead := IOOutcome.ok [1],
            masterWrite := WriteOutcome.ok, masterRead := IOOutcome.ok [2] } ]
      = 0 :=
  ⟨(claim_C6_close_terminates _ _ false
      [ { sel := SelectEvent.ready true true, stdinRead := IOOutcome.ok [1],
          masterWrite := WriteOutcome.ok, masterRead := IOOutcome.ok [2] } ]
      rfl rfl (by decide) rfl).1,
   (claim_C6_close_terminates _ _ false
      [ { sel := SelectEvent.ready true true, stdinRead := IOOutcome.ok [1],
          masterWrite := WriteOutcome.ok, masterRead := IOOutcome.ok [2] } ]
      rfl rfl (by decide) rfl).2.2⟩

/-- Claim C7: when `termios.tcgetattr` raises (standard input is not a
terminal), `run` prints the error and returns 1, and nothing else happens:
no raw mode, no forwarding iteration, no wait, no restore, no master fd to
close — no session is attempted. -/
theorem claim_C7_no_tty_no_session (env : RunEnv) (h : env.tcg = none) :
    runTrace env = ([Action.printError], 1)
    ∧ Action.setraw ∉ (runTrace env).1
    ∧ Action.loopIter ∉ (runTrace env).1
    ∧ Action.waitChild ∉ (runTrace env).1
    ∧ Action.restore ∉ (runTrace env).1
    ∧ Action.closeMaster ∉ (runTrace env).1 := by
  obtain ⟨tcg, forkR, sOk, evs, w⟩ := env
  have h2 : tcg = none := h
  subst h2
  have hrt : runTrace { tcg := none, forkR := forkR, setrawOk := sOk,
                        loopEvents := evs, waitR := w }
      = ([Action.printError], 1) := rfl
  refine ⟨hrt, ?_, ?_, ?_, ?_, ?_⟩ <;> rw [hrt] <;> decide

/-- Claim C7 witness. -/
theorem claim_C7_witness :
    runTrace { tcg := none, forkR := none, setrawOk := false,
               loopEvents := [], waitR := WaitOutcome.childGone }
      = ([Action.printError], 1) :=
  (claim_C7_no_tty_no_session _ rfl).1

/-- Claim C8, counterexample: an interrupt delivered during the forwarding
loop (the loop event is `interrupt`, and one iteration did execute) still
ends with exit code `WEXITSTATUS(status)` of the child's subsequent wait —
here the child exits with status 0, so the wrapper exits 0: the exit code
after an interrupt is neither non-zero nor deterministic (it depends on the
child).  The terminal is restored and no error is printed, as the claim
says. -/
theorem claim_C8_counterexample :
    (runTrace { tcg := some 0, forkR := some (7, 3), setrawOk := true,
                loopEvents := [ { sel := SelectEvent.interrupt,
                                  stdinRead := IOOutcome.ok [],
                                  masterWrite := WriteOutcome.ok,
                                  masterRead := IOOutcome.ok [] } ],
                waitR := WaitOutcome.status 0 }).1
      = [Action.setraw, Action.loopIter, Action.waitChild, Action.restore,
         Action.closeMaster, Action.killChild]
    ∧ (runTrace { tcg := some 0, forkR := some (7, 3), setrawOk := true,
                  loopEvents := [ { sel := SelectEvent.interrupt,
                                    stdinRead := IOOutcome.ok [],
                                    masterWrite := WriteOutcome.ok,
                                    masterRead := IOOutcome.ok [] } ],
                  waitR := WaitOutcome.status 0 }).2
      = 0 :=
  ⟨rfl, rfl⟩

/-- Claim C8 (amended): an interrupt (`select.error` / `KeyboardInterrupt`)
during a loop iteration stops the loop immediately without forwarding
anything further; in any session that reached the forwarding stage the
wrapper prints no error, restores the terminal exactly once, and returns
the translation of the child's waited status (`WEXITSTATUS`, or 1 if the
child no longer exists) — a code that is deterministic in the child's
status but not necessarily non-zero. -/
theorem claim_C8_amended_interrupt :
    (∀ (s : FwdState) (ev : IterEvent), ev.sel = SelectEvent.interrupt →
      forwardIter s ev = { s with running := false })
    ∧ (∀ (env : RunEnv) (attrs pid mfd : Nat),
      env.tcg = some attrs → env.forkR = some (pid, mfd) → env.setrawOk = true →
      Action.printError ∉ (runTrace env).1
      ∧ countAct Action.restore (runTrace env).1 = 1
      ∧ (runTrace env).2 = forwardIOResult env.waitR) := by
  constructor
  · intro s ev h
    simp [forwardIter, h]
  · intro env attrs pid mfd h1 h2 h3
    obtain ⟨tcg, forkR, sOk, evs, w⟩ := env
    have h1b : tcg = some attrs := h1
    have h2b : forkR = some (pid, mfd) := h2
    have h3b : sOk = true := h3
    subst h1b; subst h2b; subst h3b
    refine ⟨?_, ?_, rfl⟩
    · apply not_mem_of_countAct_eq_zero
      simp [runTrace, countAct, countAct_append, countAct_replicate_of_ne,
        countAct_cleanupTrace_of_ne]
    · simp [runTrace, countAct, countAct_append, countAct_replicate_of_ne,
        countAct_cleanupTrace_of_ne]

/-- Claim C8 witness: in a session whose only loop event is an interrupt,
no error is printed and the terminal is restored exactly once. -/
theorem claim_C8_witness :
    Action.printError ∉
      (runTrace { tcg := some 0, forkR := some (7, 3), setrawOk := true,
                  loopEvents := [ { sel := SelectEvent.interrupt,
                                    stdinRead := IOOutcome.ok [],
                                    masterWrite := WriteOutcome.ok,
                                    masterRead := IOOutcome.ok [] } ],
                  waitR := WaitOutcome.status 0 }).1
    ∧ countAct Action.restore
        (runTrace { tcg := some 0, forkR := some (7, 3), setrawOk := true,
                    loopEvents := [ { sel := SelectEvent.interrupt,
                                      stdinRead := IOOutcome.ok [],
                                      masterWrite := WriteOutcome.ok,
                                      masterRead := IOOutcome.ok [] } ],
                    waitR := WaitOutcome.status 0 }).1 = 1 :=
  ⟨(claim_C8_amended_interrupt.2 _ 0 7 3 rfl rfl rfl).1,
   (claim_C8_amended_interrupt.2 _ 0 7 3 rfl rfl rfl).2.1⟩

/-- Claim C9: descriptor hygiene.  In every session the `_cleanup` close of
the pty master is the only close: it happens zero times when the fork never
succeeded and exactly once when it did (the master fd returned by a
successful `pty.fork` is a fresh descriptor, hence non-zero, so the Python
truthiness test `if self.master_fd:` passes), and no forwarding iteration
ever occurs at or after the close — cleanup runs strictly after the loop
has ended. -/
theorem claim_C9_descriptor_hygiene (env : RunEnv) :
    (env.forkR = none → countAct Action.closeMaster (runTrace env).1 = 0)
    ∧ (∀ attrs pid mfd : Nat, env.tcg = some attrs →
        env.forkR = some (pid, mfd) → mfd ≠ 0 →
        countAct Action.closeMaster (runTrace env).1 = 1)
    ∧ ioAfterClose (runTrace env).1 = false := by
  obtain ⟨tcg, forkR, sOk, evs, w⟩ := env
  refine ⟨?_, ?_, ?_⟩
  · intro h
    have hb : forkR = none := h
    subst hb
    cases tcg <;> rfl
  · intro attrs pid mfd h1 h2 h3
    have h1b : tcg = some attrs := h1
    have h2b : forkR = some (pid, mfd) := h2
    subst h1b; subst h2b
    have hmt : optTruthy (some mfd) = true := by simp [optTruthy, h3]
    cases sOk with
    | false =>
      simp [runTrace, countAct, countAct_append,
        countAct_closeMaster_cleanupTrace, hmt]
    | true =>
      simp [runTrace, countAct, countAct_append, countAct_replicate_of_ne,
        countAct_closeMaster_cleanupTrace, hmt]
  · cases tcg with
    | none => rfl
    | some attrs =>
      cases forkR with
      | none => rfl
      | some pm =>
        obtain ⟨pid, mfd⟩ := pm
        cases sOk with
        | false =>
          have hd : (runTrace { tcg := some attrs, forkR := some (pid, mfd),
                                setrawOk := false, loopEvents := evs,
                                waitR := w }).1
              = [Action.restore, Action.printError]
                ++ cleanupTrace (some mfd) (some pid) := rfl
          rw [hd, ioAfterClose_append _ _ (by decide)]
          exact ioAfterClose_cleanupTrace _ _
        | true =>
          have hd : (runTrace { tcg := some attrs, forkR := some (pid, mfd),
                                setrawOk := true, loopEvents := evs,
                                waitR := w }).1
              = (Action.setraw ::
                  (List.replicate (numIters initFwd evs) Action.loopIter
                    ++ [Action.waitChild, Action.restore]))
                ++ cleanupTrace (some mfd) (some pid) := by
            simp [runTrace]
          rw [hd, ioAfterClose_append _ _ ?_]
          · exact ioAfterClose_cleanupTrace _ _
          · intro hmem
            rcases List.mem_cons.mp hmem with he | hm2
            · exact absurd he (by decide)
            rcases List.mem_append.mp hm2 with hm3 | hm3
            · exact absurd (List.eq_of_mem_replicate hm3) (by decide)
            · exact absurd hm3 (by decide)

/-- Claim C9 witness: one session with a successful spawn closes the master
exactly once; one whose fork raised closes it zero times. -/
theorem claim_C9_witness :
    countAct Action.closeMaster
      (runTrace { tcg := some 0, forkR := some (7, 3), setrawOk := true,
                  loopEvents := [], waitR := WaitOutcome.childGone }).1 = 1
    ∧ countAct Action.closeMaster
        (runTrace { tcg := some 0, forkR := none, setrawOk := true,
                    loopEvents := [], waitR := WaitOutcome.childGone }).1 = 0 :=
  ⟨(claim_C9_descriptor_hygiene _).2.1 0 7 3 rfl rfl (by decide),
   (claim_C9_descriptor_hygiene _).1 rfl⟩

/-- Claim C10: the minimal no-pty wrapper never forwards the wrapper's
stdin to the child.  Over any run of its forwarding loop the bytes written
to the child's stdin pipe and the pipe's open/closed state are untouched;
starting from the spawn state (pipe created by `Popen(..., stdin=PIPE)`,
empty and open) the child receives no bytes on stdin and the pipe is never
closed — only the child's stdout and stderr are forwarded. -/
theorem claim_C10_no_stdin_forwarding (s : MinState) (evs : List MinEvent) :
    (minimalLoop s evs).toChildStdin = s.toChildStdin
    ∧ (minimalLoop s evs).childStdinClosed = s.childStdinClosed
    ∧ (minimalLoop minimalSpawnState evs).toChildStdin = []
    ∧ (minimalLoop minimalSpawnState evs).childStdinClosed = false :=
  ⟨(minimalLoop_frame s evs).1, (minimalLoop_frame s evs).2,
   (minimalLoop_frame minimalSpawnState evs).1,
   (minimalLoop_frame minimalSpawnState evs).2⟩

end ShellBot
